import Mathlib

/-!
Shallow embedding of the GPS node source (`src/gps_node.cpp`).

Modelling conventions:
- Bytes are `Nat` ASCII codes: 76 = L, 13 = CR, 86 = V, 78 = N, 69 = E.
- C `float` arithmetic is modelled with exact rationals `ℚ`; `int` is `Int`.
- The stack buffer `char data_capture_array[40]` is modelled as a `List Nat`
  written through `writeAt` (a write past the current end pads with zeros);
  reads use `List.getD _ _ 0`. The C declaration bounds the array at 40
  cells, which the theorems refer to explicitly.
- The globals `latitude`/`longitude` and the loop variables
  `enable_data_capture` / `data_is_valid` / `array_index` form `LoopState`.
- Side effects visible outside the loop (a `ROS_INFO` diagnostic at an
  invalid sentence, a call of `ProcessGPSData`, a `sensor_pub.publish`)
  are recorded in a trace of `Event`s.
-/

namespace GpsNode

/-- Source function `ConvertDMSToDD`, verbatim over exact rationals:
`float DecDeg = dir * ((float)deg) + ((float)min/60) + (sec/3600);`.
Note that `dir` multiplies only the degrees term. -/
def ConvertDMSToDD (deg mi : Int) (sec : ℚ) (dir : Int) : ℚ :=
  (dir : ℚ) * (deg : ℚ) + (mi : ℚ) / 60 + sec / 3600

/-- The conversion law as the specification words it: the hemisphere sign
multiplies the entire sum `degrees + minutes/60 + seconds/3600`. Stated
only for comparison with `ConvertDMSToDD`. -/
def specDecimalDegrees (deg mi : Int) (sec : ℚ) (dir : Int) : ℚ :=
  (dir : ℚ) * ((deg : ℚ) + (mi : ℚ) / 60 + sec / 3600)

/-- Source read `GPS_data_array[i] - '0'`: the byte at index `i`
(0 when the cell was never written) minus 48. -/
def charVal (a : List Nat) (i : Nat) : Int :=
  (a.getD i 0 : Int) - 48

/-- Source: `lat_deg = ((a[1]-'0')*10) + (a[2]-'0')`. -/
def lat_deg (a : List Nat) : Int := charVal a 1 * 10 + charVal a 2

/-- Source: `lat_min = ((a[3]-'0')*10) + (a[4]-'0')`. -/
def lat_min (a : List Nat) : Int := charVal a 3 * 10 + charVal a 4

/-- Source: `lat_sec = ((a[6]-'0')*10) + (a[7]-'0') + (a[8]-'0')/10 + (a[9]-'0')/100 + (a[10]-'0')/1000`. -/
def lat_sec (a : List Nat) : ℚ :=
  ((charVal a 6 * 10 + charVal a 7 : Int) : ℚ) +
    (charVal a 8 : ℚ) / 10 + (charVal a 9 : ℚ) / 100 + (charVal a 10 : ℚ) / 1000

/-- Source: `if(a[12]=='N') lat_dir = 1; else lat_dir = -1;`. -/
def lat_dir (a : List Nat) : Int := if a.getD 12 0 = 78 then 1 else -1

/-- Source: `long_deg = ((a[14]-'0')*100) + ((a[15]-'0')*10) + (a[16]-'0')`. -/
def long_deg (a : List Nat) : Int :=
  charVal a 14 * 100 + charVal a 15 * 10 + charVal a 16

/-- Source: `long_min = ((a[17]-'0')*10) + (a[18]-'0')`. -/
def long_min (a : List Nat) : Int := charVal a 17 * 10 + charVal a 18

/-- Source: `long_sec = ((a[20]-'0')*10) + (a[21]-'0') + (a[22]-'0')/10 + (a[23]-'0')/100 + (a[24]-'0')/1000`. -/
def long_sec (a : List Nat) : ℚ :=
  ((charVal a 20 * 10 + charVal a 21 : Int) : ℚ) +
    (charVal a 22 : ℚ) / 10 + (charVal a 23 : ℚ) / 100 + (charVal a 24 : ℚ) / 1000

/-- Source: `if(a[26]=='E') long_dir = 1; else long_dir = -1;`. -/
def long_dir (a : List Nat) : Int := if a.getD 26 0 = 69 then 1 else -1

/-- Source function `ProcessGPSData`: the source mutates the globals `latitude` and
`longitude`; modelled as returning the pair `(latitude, longitude)`. -/
def ProcessGPSData (a : List Nat) : ℚ × ℚ :=
  (ConvertDMSToDD (lat_deg a) (lat_min a) (lat_sec a) (lat_dir a),
   ConvertDMSToDD (long_deg a) (long_min a) (long_sec a) (long_dir a))

/-- Source write `data_capture_array[i] = b`: write byte `b` at index `i`, padding
unwritten cells with 0 when the write lands past the current end. -/
def writeAt : List Nat → Nat → Nat → List Nat
  | [], 0, b => [b]
  | [], i + 1, b => 0 :: writeAt [] i b
  | _ :: xs, 0, b => b :: xs
  | x :: xs, i + 1, b => x :: writeAt xs i b

/-- Sequential writes of a whole byte list starting at index `i`. -/
def writeSeq : List Nat → Nat → List Nat → List Nat
  | a, _, [] => a
  | a, i, b :: bs => writeSeq (writeAt a i b) (i + 1) bs

/-- Whether a byte list contains the invalid-reading marker `'V'` (86). -/
def hasV : List Nat → Bool
  | [] => false
  | b :: bs => b == 86 || hasV bs

/-- The mutable state of `main`'s loop: the flags and index local to
`main` together with the global coordinates. -/
structure LoopState where
  enable_data_capture : Bool
  data_is_valid : Bool
  array_index : Nat
  data_capture_array : List Nat
  latitude : ℚ
  longitude : ℚ
  deriving DecidableEq

/-- Externally visible effects of the loop:
`processed` = `ProcessGPSData` ran at a terminator (coordinates updated),
`noFixDiag` = the `ROS_INFO` "cannot locate position" diagnostic,
`publish` = `sensor_pub.publish` of the stored coordinates. -/
inductive Event where
  | processed (lat lon : ℚ) : Event
  | noFixDiag : Event
  | publish (lat lon : ℚ) : Event
  deriving DecidableEq

/-- One iteration of the byte-consuming branch of the inner loop: the
`if(uartChar=='L')` arm, else the `switch` over `'\r'` / `'V'` / default
(the `'V'` case falls through to the default append). -/
def stepByte (s : LoopState) (b : Nat) : LoopState × List Event :=
  if b = 76 then
    ({ s with enable_data_capture := true, array_index := 0, data_is_valid := true }, [])
  else if s.enable_data_capture then
    if b = 13 then
      if s.data_is_valid then
        ({ s with enable_data_capture := false,
                  latitude := (ProcessGPSData s.data_capture_array).1,
                  longitude := (ProcessGPSData s.data_capture_array).2 },
         [Event.processed (ProcessGPSData s.data_capture_array).1
            (ProcessGPSData s.data_capture_array).2])
      else
        ({ s with enable_data_capture := false }, [Event.noFixDiag])
    else if b = 86 then
      ({ s with data_is_valid := false,
                data_capture_array := writeAt s.data_capture_array s.array_index b,
                array_index := s.array_index + 1 }, [])
    else
      ({ s with data_capture_array := writeAt s.data_capture_array s.array_index b,
                array_index := s.array_index + 1 }, [])
  else
    (s, [])

/-- Drain a burst of available bytes through the inner loop. -/
def feedBytes : LoopState → List Nat → LoopState × List Event
  | s, [] => (s, [])
  | s, b :: bs =>
    ((feedBytes (stepByte s b).1 bs).1,
     (stepByte s b).2 ++ (feedBytes (stepByte s b).1 bs).2)

/-- The byte-starved branch: `if((latitude==0)&&(longitude==0)) data_is_valid = 0;`
followed by `break`. -/
def dryBranch (s : LoopState) : LoopState :=
  if s.latitude = 0 ∧ s.longitude = 0 then { s with data_is_valid := false } else s

/-- One outer-loop cycle: drain the available bytes, take the dry branch,
then `if(data_is_valid) publish`. -/
def runCycle (s : LoopState) (bs : List Nat) : LoopState × List Event :=
  if (dryBranch (feedBytes s bs).1).data_is_valid then
    (dryBranch (feedBytes s bs).1,
     (feedBytes s bs).2 ++
       [Event.publish (dryBranch (feedBytes s bs).1).latitude
          (dryBranch (feedBytes s bs).1).longitude])
  else (dryBranch (feedBytes s bs).1, (feedBytes s bs).2)

/-- A sequence of outer-loop cycles, each given its burst of bytes. -/
def runCycles : LoopState → List (List Nat) → LoopState × List Event
  | s, [] => (s, [])
  | s, cs :: rest =>
    ((runCycles (runCycle s cs).1 rest).1,
     (runCycle s cs).2 ++ (runCycles (runCycle s cs).1 rest).2)

/-- A 27-cell capture buffer shaped like a GLL body with all digit cells
`'0'`, hemispheres `'N'`/`'E'`, except that the first latitude-degrees
digit cell (index 1) holds the byte `b`. -/
def digitTemplate (b : Nat) : List Nat :=
  [44, b, 48, 48, 48, 46, 48, 48, 48, 48, 48, 44, 78, 44,
   48, 48, 48, 48, 48, 46, 48, 48, 48, 48, 48, 44, 69]

/-- A cycle's byte burst is byte-starved (empty) or a single framed
sentence carrying the not-fixed marker `'V'` somewhere in its body. -/
def starvedOrNotFixed (bs : List Nat) : Prop :=
  bs = [] ∨ ∃ body, bs = 76 :: body ++ [13] ∧ 86 ∈ body ∧ 76 ∉ body ∧ 13 ∉ body

lemma writeAt_getD_self (i : Nat) (l : List Nat) (b : Nat) :
    (writeAt l i b).getD i 0 = b := by
  induction i generalizing l with
  | zero => cases l <;> simp [writeAt]
  | succ i ih =>
    cases l with
    | nil => simpa [writeAt] using ih []
    | cons x xs => simpa [writeAt] using ih xs

lemma writeAt_getD_ne (i : Nat) (l : List Nat) (j b : Nat) (h : j ≠ i) :
    (writeAt l i b).getD j 0 = l.getD j 0 := by
  induction i generalizing l j with
  | zero =>
    cases l <;> cases j <;> simp_all [writeAt]
  | succ i ih =>
    cases l <;> cases j <;> simp_all [writeAt]

lemma writeSeq_getD_lt (bs : List Nat) (a : List Nat) (i j : Nat) (h : j < i) :
    (writeSeq a i bs).getD j 0 = a.getD j 0 := by
  induction bs generalizing a i with
  | nil => rfl
  | cons b bs ih =>
    rw [writeSeq, ih _ _ (Nat.lt_succ_of_lt h), writeAt_getD_ne _ _ _ _ (Nat.ne_of_lt h)]

lemma writeSeq_getD (bs : List Nat) (a : List Nat) (i j : Nat) (h : j < bs.length) :
    (writeSeq a i bs).getD (i + j) 0 = bs.getD j 0 := by
  induction bs generalizing a i j with
  | nil => exact absurd h (by simp)
  | cons b bs ih =>
    cases j with
    | zero =>
      exact (writeSeq_getD_lt bs (writeAt a i b) (i + 1) i (by omega)).trans
        (writeAt_getD_self i a b)
    | succ j =>
      have hj : j < bs.length := Nat.lt_of_succ_lt_succ h
      have := ih (writeAt a i b) (i + 1) j hj
      rw [writeSeq]
      rw [show i + (j + 1) = i + 1 + j by omega]
      rw [this]
      rfl

lemma hasV_eq_true_of_mem (l : List Nat) (h : 86 ∈ l) : hasV l = true := by
  induction l with
  | nil => cases h
  | cons b bs ih =>
    rcases List.mem_cons.mp h with h | h
    · simp [hasV, h.symm]
    · simp [hasV, ih h]

lemma hasV_eq_false_of_not_mem (l : List Nat) (h : 86 ∉ l) : hasV l = false := by
  induction l with
  | nil => rfl
  | cons b bs ih =>
    have hb : b ≠ 86 := fun hb => h (hb ▸ List.mem_cons_self b bs)
    have hbs : 86 ∉ bs := fun hm => h (List.mem_cons_of_mem _ hm)
    simp [hasV, hb, ih hbs]

lemma feedBytes_append (s : LoopState) (xs ys : List Nat) :
    feedBytes s (xs ++ ys) =
      ((feedBytes (feedBytes s xs).1 ys).1,
       (feedBytes s xs).2 ++ (feedBytes (feedBytes s xs).1 ys).2) := by
  induction xs generalizing s with
  | nil => simp [feedBytes]
  | cons b bs ih =>
    simp only [List.cons_append, feedBytes, List.append_eq, ih, List.append_assoc]

lemma feedBytes_clean (body : List Nat) (s : LoopState)
    (he : s.enable_data_capture = true) (h76 : 76 ∉ body) (h13 : 13 ∉ body) :
    feedBytes s body =
      ({ s with data_is_valid := s.data_is_valid && !hasV body,
                array_index := s.array_index + body.length,
                data_capture_array := writeSeq s.data_capture_array s.array_index body },
       []) := by
  induction body generalizing s with
  | nil =>
    simp [feedBytes, writeSeq, hasV]
  | cons b bs ih =>
    have hb76 : b ≠ 76 := fun hb => h76 (hb ▸ List.mem_cons_self b bs)
    have hbs76 : 76 ∉ bs := fun hm => h76 (List.mem_cons_of_mem _ hm)
    have hb13 : b ≠ 13 := fun hb => h13 (hb ▸ List.mem_cons_self b bs)
    have hbs13 : 13 ∉ bs := fun hm => h13 (List.mem_cons_of_mem _ hm)
    by_cases hb86 : b = 86
    · subst hb86
      rw [feedBytes]
      simp only [stepByte, if_neg hb76, he, if_true, if_neg hb13, if_pos rfl]
      rw [ih _ rfl hbs76 hbs13]
      simp [hasV, writeSeq, Nat.add_assoc, Nat.add_comm 1]
    · rw [feedBytes]
      simp only [stepByte, if_neg hb76, he, if_true, if_neg hb13, if_neg hb86]
      rw [ih _ rfl hbs76 hbs13]
      have hbeq : (b == 86) = false := by simpa using hb86
      simp [hasV, hbeq, writeSeq, Nat.add_assoc, Nat.add_comm 1]

lemma dryBranch_latitude (s : LoopState) : (dryBranch s).latitude = s.latitude := by
  unfold dryBranch; split <;> rfl

lemma dryBranch_longitude (s : LoopState) : (dryBranch s).longitude = s.longitude := by
  unfold dryBranch; split <;> rfl

lemma dryBranch_eq_of_valid_false (t : LoopState) (h : t.data_is_valid = false) :
    dryBranch t = t := by
  unfold dryBranch
  split
  · cases t; simp_all
  · rfl

lemma dryBranch_of_zero (t : LoopState) (h1 : t.latitude = 0) (h2 : t.longitude = 0) :
    dryBranch t = { t with data_is_valid := false } := by
  unfold dryBranch
  rw [if_pos ⟨h1, h2⟩]

lemma publish_not_in_stepByte (s : LoopState) (b : Nat) (la lo : ℚ) :
    Event.publish la lo ∉ (stepByte s b).2 := by
  unfold stepByte
  split_ifs <;> simp

lemma publish_not_in_feedBytes (bs : List Nat) (s : LoopState) (la lo : ℚ) :
    Event.publish la lo ∉ (feedBytes s bs).2 := by
  induction bs generalizing s with
  | nil => simp [feedBytes]
  | cons b rest ih =>
    simp only [feedBytes, List.mem_append]
    rintro (h | h)
    · exact publish_not_in_stepByte s b la lo h
    · exact ih _ h

lemma feedBytes_L (s : LoopState) :
    feedBytes s [76] =
      ({ s with enable_data_capture := true, array_index := 0, data_is_valid := true },
       []) := by
  simp [feedBytes, stepByte]

lemma feedBytes_CR (s : LoopState) (he : s.enable_data_capture = true) :
    feedBytes s [13] =
      if s.data_is_valid then
        ({ s with enable_data_capture := false,
                  latitude := (ProcessGPSData s.data_capture_array).1,
                  longitude := (ProcessGPSData s.data_capture_array).2 },
         [Event.processed (ProcessGPSData s.data_capture_array).1
            (ProcessGPSData s.data_capture_array).2])
      else ({ s with enable_data_capture := false }, [Event.noFixDiag]) := by
  by_cases hv : s.data_is_valid <;> simp [feedBytes, stepByte, he, hv]

lemma feedBytes_notFixed (s : LoopState) (body : List Nat)
    (hv : 86 ∈ body) (h76 : 76 ∉ body) (h13 : 13 ∉ body) :
    feedBytes s (76 :: body ++ [13]) =
      (⟨false, false, body.length, writeSeq s.data_capture_array 0 body,
        s.latitude, s.longitude⟩, [Event.noFixDiag]) := by
  have hsplit : (76 :: body ++ [13] : List Nat) = [76] ++ (body ++ [13]) := by simp
  rw [hsplit, feedBytes_append, feedBytes_L, feedBytes_append]
  rw [feedBytes_clean body _ rfl h76 h13]
  rw [feedBytes_CR _ rfl]
  simp [hasV_eq_true_of_mem body hv]

lemma feedBytes_fixedSentence (s : LoopState) (body : List Nat)
    (hv : 86 ∉ body) (h76 : 76 ∉ body) (h13 : 13 ∉ body) :
    feedBytes s (76 :: body ++ [13]) =
      (⟨false, true, body.length, writeSeq s.data_capture_array 0 body,
        (ProcessGPSData (writeSeq s.data_capture_array 0 body)).1,
        (ProcessGPSData (writeSeq s.data_capture_array 0 body)).2⟩,
       [Event.processed (ProcessGPSData (writeSeq s.data_capture_array 0 body)).1
          (ProcessGPSData (writeSeq s.data_capture_array 0 body)).2]) := by
  have hsplit : (76 :: body ++ [13] : List Nat) = [76] ++ (body ++ [13]) := by simp
  rw [hsplit, feedBytes_append, feedBytes_L, feedBytes_append]
  rw [feedBytes_clean body _ rfl h76 h13]
  rw [feedBytes_CR _ rfl]
  simp [hasV_eq_false_of_not_mem body hv]

lemma ProcessGPSData_congr (a b : List Nat)
    (h : ∀ k, k ≤ 26 → a.getD k 0 = b.getD k 0) :
    ProcessGPSData a = ProcessGPSData b := by
  unfold ProcessGPSData ConvertDMSToDD lat_deg lat_min lat_sec lat_dir long_deg
    long_min long_sec long_dir charVal
  rw [h 1 (by omega), h 2 (by omega), h 3 (by omega), h 4 (by omega), h 6 (by omega),
    h 7 (by omega), h 8 (by omega), h 9 (by omega), h 10 (by omega), h 12 (by omega),
    h 14 (by omega), h 15 (by omega), h 16 (by omega), h 17 (by omega), h 18 (by omega),
    h 20 (by omega), h 21 (by omega), h 22 (by omega), h 23 (by omega), h 24 (by omega),
    h 26 (by omega)]

lemma ProcessGPSData_writeSeq (a body : List Nat) (h : 27 ≤ body.length) :
    ProcessGPSData (writeSeq a 0 body) = ProcessGPSData body := by
  apply ProcessGPSData_congr
  intro k hk
  have := writeSeq_getD body a 0 k (by omega)
  simpa using this

lemma ProcessGPSData_digitTemplate (b : Nat) :
    ProcessGPSData (digitTemplate b) = (((b : ℚ) - 48) * 10, 0) := by
  have g1 : (digitTemplate b).getD 1 0 = b := rfl
  have g2 : (digitTemplate b).getD 2 0 = 48 := rfl
  have g3 : (digitTemplate b).getD 3 0 = 48 := rfl
  have g4 : (digitTemplate b).getD 4 0 = 48 := rfl
  have g6 : (digitTemplate b).getD 6 0 = 48 := rfl
  have g7 : (digitTemplate b).getD 7 0 = 48 := rfl
  have g8 : (digitTemplate b).getD 8 0 = 48 := rfl
  have g9 : (digitTemplate b).getD 9 0 = 48 := rfl
  have g10 : (digitTemplate b).getD 10 0 = 48 := rfl
  have g12 : (digitTemplate b).getD 12 0 = 78 := rfl
  have g14 : (digitTemplate b).getD 14 0 = 48 := rfl
  have g15 : (digitTemplate b).getD 15 0 = 48 := rfl
  have g16 : (digitTemplate b).getD 16 0 = 48 := rfl
  have g17 : (digitTemplate b).getD 17 0 = 48 := rfl
  have g18 : (digitTemplate b).getD 18 0 = 48 := rfl
  have g20 : (digitTemplate b).getD 20 0 = 48 := rfl
  have g21 : (digitTemplate b).getD 21 0 = 48 := rfl
  have g22 : (digitTemplate b).getD 22 0 = 48 := rfl
  have g23 : (digitTemplate b).getD 23 0 = 48 := rfl
  have g24 : (digitTemplate b).getD 24 0 = 48 := rfl
  have g26 : (digitTemplate b).getD 26 0 = 69 := rfl
  unfold ProcessGPSData ConvertDMSToDD lat_deg lat_min lat_sec lat_dir long_deg
    long_min long_sec long_dir charVal
  rw [g1, g2, g3, g4, g6, g7, g8, g9, g10, g12, g14, g15, g16, g17, g18, g20, g21,
    g22, g23, g24, g26]
  simp only [Prod.mk.injEq]
  constructor <;> (push_cast; norm_num)

lemma runCycle_notFixed (s : LoopState) (body : List Nat)
    (hv : 86 ∈ body) (h76 : 76 ∉ body) (h13 : 13 ∉ body) :
    runCycle s (76 :: body ++ [13]) =
      (dryBranch ⟨false, false, body.length, writeSeq s.data_capture_array 0 body,
        s.latitude, s.longitude⟩, [Event.noFixDiag]) := by
  unfold runCycle
  rw [feedBytes_notFixed s body hv h76 h13]
  rw [dryBranch_eq_of_valid_false _ rfl]
  simp

/-- C1 evaluation at the failing input: for the Southern hemisphere
(`dir = -1`) and 0°30'00'', the source returns `+1/2` while the
specification's law gives `-1/2`: the sign multiplies only the degrees
term, not the whole sum. -/
theorem C1_sign_multiplies_only_degrees :
    ConvertDMSToDD 0 30 0 (-1) = 1 / 2 ∧
    specDecimalDegrees 0 30 0 (-1) = -(1 / 2) ∧
    ConvertDMSToDD 0 30 0 (-1) ≠ specDecimalDegrees 0 30 0 (-1) := by
  refine ⟨by norm_num [ConvertDMSToDD], by norm_num [specDecimalDegrees], ?_⟩
  norm_num [ConvertDMSToDD, specDecimalDegrees]

lemma runCycle_eval (s : LoopState) (bs : List Nat) (X : LoopState) (E : List Event)
    (hfeed : feedBytes s bs = (X, E)) :
    runCycle s bs =
      (if (dryBranch X).data_is_valid then
        (dryBranch X,
         E ++ [Event.publish (dryBranch X).latitude (dryBranch X).longitude])
      else (dryBranch X, E)) := by
  unfold runCycle
  rw [hfeed]

lemma runCycle_zero_end (s : LoopState) (bs : List Nat) (X : LoopState) (E : List Event)
    (hfeed : feedBytes s bs = (X, E)) (hlat : X.latitude = 0) (hlon : X.longitude = 0) :
    runCycle s bs = ({ X with data_is_valid := false }, E) := by
  rw [runCycle_eval s bs X E hfeed, dryBranch_of_zero X hlat hlon]
  rw [if_neg (by simp)]

lemma runCycle_publish_end (s : LoopState) (bs : List Nat) (X : LoopState) (E : List Event)
    (hfeed : feedBytes s bs = (X, E)) (hvalid : X.data_is_valid = true)
    (hnz : ¬(X.latitude = 0 ∧ X.longitude = 0)) :
    runCycle s bs = (X, E ++ [Event.publish X.latitude X.longitude]) := by
  have hdry : dryBranch X = X := by
    unfold dryBranch
    rw [if_neg hnz]
  rw [runCycle_eval s bs X E hfeed, hdry, if_pos hvalid]

lemma feedBytes_digitTemplate (b : Nat) (s : LoopState)
    (hs : s.data_capture_array = [])
    (h86 : b ≠ 86) (h76 : b ≠ 76) (h13 : b ≠ 13) :
    feedBytes s (76 :: digitTemplate b ++ [13]) =
      (⟨false, true, (digitTemplate b).length, digitTemplate b,
        ((b : ℚ) - 48) * 10, 0⟩,
       [Event.processed (((b : ℚ) - 48) * 10) 0]) := by
  have hm86 : 86 ∉ digitTemplate b := by
    intro hmem
    simp [digitTemplate] at hmem
    omega
  have hm76 : 76 ∉ digitTemplate b := by
    intro hmem
    simp [digitTemplate] at hmem
    omega
  have hm13 : 13 ∉ digitTemplate b := by
    intro hmem
    simp [digitTemplate] at hmem
    omega
  rw [feedBytes_fixedSentence s (digitTemplate b) hm86 hm76 hm13, hs]
  have hws : writeSeq ([] : List Nat) 0 (digitTemplate b) = digitTemplate b := rfl
  rw [hws, ProcessGPSData_digitTemplate]

lemma runCycle_starvedOrNotFixed (s : LoopState) (cs : List Nat)
    (hlat : s.latitude = 0) (hlon : s.longitude = 0) (hcs : starvedOrNotFixed cs) :
    ((runCycle s cs).2 = [] ∨ (runCycle s cs).2 = [Event.noFixDiag]) ∧
    (runCycle s cs).1.latitude = 0 ∧ (runCycle s cs).1.longitude = 0 := by
  rcases hcs with rfl | ⟨body, rfl, hv, h76, h13⟩
  · have hz := runCycle_zero_end s [] s [] rfl hlat hlon
    rw [hz]
    exact ⟨Or.inl rfl, hlat, hlon⟩
  · have hr := runCycle_notFixed s body hv h76 h13
    rw [hr, dryBranch_eq_of_valid_false _ rfl]
    exact ⟨Or.inr rfl, hlat, hlon⟩

/-- C2: refuted as stated; what the code does instead: while capture is
armed, every non-restart, non-terminator byte is appended and
`array_index` grows with no bound check, so an overlong unterminated run
leaves capture armed with the index past the 40-cell declaration of
`char data_capture_array[40]`; nothing is discarded and the armed flag is
not cleared. -/
theorem C2_unbounded_accumulation (s : LoopState) (body : List Nat)
    (he : s.enable_data_capture = true) (h76 : 76 ∉ body) (h13 : 13 ∉ body) :
    (feedBytes s body).1.array_index = s.array_index + body.length ∧
    (feedBytes s body).1.enable_data_capture = true := by
  rw [feedBytes_clean body s he h76 h13]
  exact ⟨rfl, he⟩

/-- Witness for C2: an armed framer fed 45 terminator-free bytes ends with
`array_index` at 45, past the 40-cell array, still armed. -/
theorem C2_unbounded_accumulation_witness :
    40 < (feedBytes ⟨true, true, 0, [], 0, 0⟩ (List.replicate 45 120)).1.array_index ∧
    (feedBytes ⟨true, true, 0, [], 0, 0⟩ (List.replicate 45 120)).1.enable_data_capture
      = true := by
  have h := C2_unbounded_accumulation ⟨true, true, 0, [], 0, 0⟩ (List.replicate 45 120)
    rfl (by decide) (by decide)
  exact ⟨by rw [h.1]; simp, h.2⟩

/-- C3 counterexample: the byte 63 (`'?'`, not an ASCII digit) at digit
position 1 is silently folded into the arithmetic as 63 - 48 = 15, giving
latitude 150, while the digit `'0'` there gives latitude 0: a non-digit
character contributes numerically instead of failing. -/
theorem C3_counterexample :
    (ProcessGPSData (digitTemplate 63)).1 = 150 ∧
    (ProcessGPSData (digitTemplate 48)).1 = 0 := by
  rw [ProcessGPSData_digitTemplate, ProcessGPSData_digitTemplate]
  norm_num

/-- C3 amended: the decoder performs no digit validation: whatever byte `b`
sits at an expected digit position, it contributes its ASCII offset
`b - 48` (scaled by the position weight) to the coordinate arithmetic; no
input fails. Shown for digit position 1 of the latitude field. -/
theorem C3_no_digit_validation (b : Nat) :
    (ProcessGPSData (digitTemplate b)).1 = ((b : ℚ) - 48) * 10 := by
  rw [ProcessGPSData_digitTemplate]

/-- C6 counterexample: a byte outside the four recognized hemisphere
letters is still assigned a sign instead of failing: `'X'` (88) as the
latitude hemisphere yields -1; and even the recognized letter `'N'` (78)
as the longitude hemisphere yields -1 rather than the claimed +1. -/
theorem C6_counterexample :
    lat_dir (writeAt (List.replicate 27 48) 12 88) = -1 ∧
    long_dir (writeAt (List.replicate 27 48) 26 78) = -1 := by
  constructor <;> decide

/-- C6 amended: the implemented hemisphere mapping: the latitude sign is +1
exactly when the byte at index 12 is `'N'` and -1 for every other byte
(including `'S'`); the longitude sign is +1 exactly when the byte at index
26 is `'E'` and -1 otherwise (including `'W'`); no byte is rejected. -/
theorem C6_hemisphere_mapping (a : List Nat) (c d : Nat) (hc : c ≠ 78) (hd : d ≠ 69) :
    lat_dir (writeAt a 12 78) = 1 ∧ lat_dir (writeAt a 12 c) = -1 ∧
    long_dir (writeAt a 26 69) = 1 ∧ long_dir (writeAt a 26 d) = -1 := by
  refine ⟨?_, ?_, ?_, ?_⟩
  · unfold lat_dir
    rw [writeAt_getD_self, if_pos rfl]
  · unfold lat_dir
    rw [writeAt_getD_self, if_neg hc]
  · unfold long_dir
    rw [writeAt_getD_self, if_pos rfl]
  · unfold long_dir
    rw [writeAt_getD_self, if_neg hd]

/-- Witness for C6: `'S'` (83) at the latitude hemisphere and `'W'` (87) at
the longitude hemisphere both map to -1; `'N'`/`'E'` map to +1. -/
theorem C6_hemisphere_mapping_witness :
    lat_dir (writeAt (digitTemplate 48) 12 78) = 1 ∧
    lat_dir (writeAt (digitTemplate 48) 12 83) = -1 ∧
    long_dir (writeAt (digitTemplate 48) 26 69) = 1 ∧
    long_dir (writeAt (digitTemplate 48) 26 87) = -1 :=
  C6_hemisphere_mapping (digitTemplate 48) 83 87 (by decide) (by decide)

/-- C7: for a cycle whose burst is one framed sentence carrying the
not-fixed marker `'V'`, the reading resolves invalid at the terminator:
the coordinate fields are not parsed (latitude and longitude are
unchanged), the cycle's only event is the informational diagnostic, and
nothing is published; the validity flag is false afterwards. -/
theorem C7_notFixed_resolution (s : LoopState) (body : List Nat)
    (hv : 86 ∈ body) (h76 : 76 ∉ body) (h13 : 13 ∉ body) :
    (runCycle s (76 :: body ++ [13])).2 = [Event.noFixDiag] ∧
    (runCycle s (76 :: body ++ [13])).1.latitude = s.latitude ∧
    (runCycle s (76 :: body ++ [13])).1.longitude = s.longitude ∧
    (runCycle s (76 :: body ++ [13])).1.data_is_valid = false := by
  rw [runCycle_notFixed s body hv h76 h13]
  rw [dryBranch_eq_of_valid_false _ rfl]
  exact ⟨rfl, rfl, rfl, rfl⟩

/-- Witness for C7: a not-fixed sentence fed to a state holding a prior fix
(3, 4): only the diagnostic is raised, the coordinates stay (3, 4). -/
theorem C7_notFixed_resolution_witness :
    (runCycle ⟨false, false, 0, [], 3, 4⟩ (76 :: [86, 48] ++ [13])).2 =
      [Event.noFixDiag] ∧
    (runCycle ⟨false, false, 0, [], 3, 4⟩ (76 :: [86, 48] ++ [13])).1.latitude = 3 ∧
    (runCycle ⟨false, false, 0, [], 3, 4⟩ (76 :: [86, 48] ++ [13])).1.longitude = 4 ∧
    (runCycle ⟨false, false, 0, [], 3, 4⟩ (76 :: [86, 48] ++ [13])).1.data_is_valid
      = false :=
  C7_notFixed_resolution ⟨false, false, 0, [], 3, 4⟩ [86, 48] (by decide) (by decide)
    (by decide)

/-- C9: while capture is armed, a `'V'` byte at any position sets the
validity flag false and — by the switch fallthrough — is nevertheless
appended to the capture buffer at the current index; with any further
terminator-reaching body that contains no restart byte, the whole reading
then resolves as invalid. -/
theorem C9_V_fallthrough (s : LoopState) (rest : List Nat)
    (he : s.enable_data_capture = true) (h76 : 76 ∉ rest) (h13 : 13 ∉ rest) :
    (stepByte s 86).2 = [] ∧
    (stepByte s 86).1.data_is_valid = false ∧
    (stepByte s 86).1.data_capture_array.getD s.array_index 0 = 86 ∧
    (stepByte s 86).1.array_index = s.array_index + 1 ∧
    (stepByte s 86).1.enable_data_capture = true ∧
    (feedBytes (stepByte s 86).1 (rest ++ [13])).2 = [Event.noFixDiag] := by
  have h1 : (stepByte s 86).1 =
      { s with data_is_valid := false,
               data_capture_array := writeAt s.data_capture_array s.array_index 86,
               array_index := s.array_index + 1 } := by
    simp [stepByte, he]
  have h2 : (stepByte s 86).2 = [] := by
    simp [stepByte, he]
  rw [h1, h2]
  refine ⟨rfl, rfl, writeAt_getD_self _ _ _, rfl, he, ?_⟩
  have h3 := feedBytes_clean rest
    ({ s with data_is_valid := false,
              data_capture_array := writeAt s.data_capture_array s.array_index 86,
              array_index := s.array_index + 1 }) he h76 h13
  rw [feedBytes_append, h3]
  simp [feedBytes, stepByte, he]

/-- Witness for C9: a `'V'` at index 2 of an armed capture is buffered at
index 2, invalidates the flag, and the sentence resolves as not-fixed. -/
theorem C9_V_fallthrough_witness :
    (stepByte ⟨true, true, 2, [48, 49], 0, 0⟩ 86).2 = [] ∧
    (stepByte ⟨true, true, 2, [48, 49], 0, 0⟩ 86).1.data_is_valid = false ∧
    (stepByte ⟨true, true, 2, [48, 49], 0, 0⟩ 86).1.data_capture_array.getD 2 0 = 86 ∧
    (stepByte ⟨true, true, 2, [48, 49], 0, 0⟩ 86).1.array_index = 2 + 1 ∧
    (stepByte ⟨true, true, 2, [48, 49], 0, 0⟩ 86).1.enable_data_capture = true ∧
    (feedBytes (stepByte ⟨true, true, 2, [48, 49], 0, 0⟩ 86).1 ([50] ++ [13])).2 =
      [Event.noFixDiag] :=
  C9_V_fallthrough ⟨true, true, 2, [48, 49], 0, 0⟩ [50] rfl (by decide) (by decide)

/-- C4 counterexample: a sentence with the non-digit byte `'?'` (63) at a
digit position, no `'V'`, and a terminator is decoded by the fixed-offset
arithmetic into the garbage latitude 150 and published: a fix derived from
malformed sentence data is forwarded to the sink. -/
theorem C4_counterexample :
    Event.publish 150 0 ∈
      (runCycle ⟨false, false, 0, [], 0, 0⟩ (76 :: digitTemplate 63 ++ [13])).2 := by
  have hfeed := feedBytes_digitTemplate 63 ⟨false, false, 0, [], 0, 0⟩ rfl
    (by decide) (by decide) (by decide)
  have hval : (((63 : Nat) : ℚ) - 48) * 10 = 150 := by norm_num
  rw [hval] at hfeed
  rw [runCycle_publish_end _ _ _ _ hfeed rfl (by norm_num)]
  simp

/-- C4 amended: a publication happens in a cycle only when the validity
flag survives the dry branch: the published pair equals the stored
coordinates after draining the burst, the flag is true there, and the
pair is not (0, 0). Sentences flagged invalid by `'V'` are never parsed,
but there is no malformed-data detection, so garbage digit content can be
published as a fix. -/
theorem C4_publish_only_with_flag (s : LoopState) (bs : List Nat) (la lo : ℚ)
    (h : Event.publish la lo ∈ (runCycle s bs).2) :
    (dryBranch (feedBytes s bs).1).data_is_valid = true ∧
    la = (feedBytes s bs).1.latitude ∧
    lo = (feedBytes s bs).1.longitude ∧
    ¬(la = 0 ∧ lo = 0) := by
  unfold runCycle at h
  by_cases hvd : (dryBranch (feedBytes s bs).1).data_is_valid = true
  · rw [if_pos hvd] at h
    rcases List.mem_append.mp h with h | h
    · exact absurd h (publish_not_in_feedBytes bs s la lo)
    · have h' := List.mem_singleton.mp h
      injection h' with h1 h2
      rw [dryBranch_latitude] at h1
      rw [dryBranch_longitude] at h2
      refine ⟨hvd, h1, h2, ?_⟩
      rintro ⟨hz1, hz2⟩
      have ha : (feedBytes s bs).1.latitude = 0 := by rw [← h1]; exact hz1
      have hb : (feedBytes s bs).1.longitude = 0 := by rw [← h2]; exact hz2
      have hc : (dryBranch (feedBytes s bs).1).data_is_valid = false := by
        rw [dryBranch_of_zero _ ha hb]
      rw [hvd] at hc
      exact Bool.noConfusion hc
  · rw [if_neg hvd] at h
    exact absurd h (publish_not_in_feedBytes bs s la lo)

/-- Witness for C4: a fixed sentence decoding to latitude 10 is published;
the flag is true after the dry branch, the published pair equals the
stored coordinates, and the pair is not (0, 0). -/
theorem C4_publish_only_with_flag_witness :
    (dryBranch (feedBytes ⟨false, false, 0, [], 0, 0⟩
        (76 :: digitTemplate 49 ++ [13])).1).data_is_valid = true ∧
    (10 : ℚ) = (feedBytes ⟨false, false, 0, [], 0, 0⟩
        (76 :: digitTemplate 49 ++ [13])).1.latitude ∧
    (0 : ℚ) = (feedBytes ⟨false, false, 0, [], 0, 0⟩
        (76 :: digitTemplate 49 ++ [13])).1.longitude ∧
    ¬((10 : ℚ) = 0 ∧ (0 : ℚ) = 0) := by
  have hfeed := feedBytes_digitTemplate 49 ⟨false, false, 0, [], 0, 0⟩ rfl
    (by decide) (by decide) (by decide)
  have hval : (((49 : Nat) : ℚ) - 48) * 10 = 10 := by norm_num
  rw [hval] at hfeed
  apply C4_publish_only_with_flag
  rw [runCycle_publish_end _ _ _ _ hfeed rfl (by norm_num)]
  simp

/-- C5: from any state in which the stored coordinates are still the
startup zeros, a sequence of cycles each of which is byte-starved or a
single not-fixed sentence never produces a publish event: the dry branch
clears the validity flag on every such cycle. -/
theorem C5_no_emission_before_first_fix (css : List (List Nat)) (s : LoopState)
    (la lo : ℚ) (hlat : s.latitude = 0) (hlon : s.longitude = 0)
    (hc : ∀ bs ∈ css, starvedOrNotFixed bs) :
    Event.publish la lo ∉ (runCycles s css).2 := by
  induction css generalizing s with
  | nil => simp [runCycles]
  | cons cs rest ih =>
    have h1 := runCycle_starvedOrNotFixed s cs hlat hlon
      (hc cs (List.mem_cons_self cs rest))
    have hrest : ∀ bs ∈ rest, starvedOrNotFixed bs :=
      fun bs hb => hc bs (List.mem_cons_of_mem _ hb)
    intro hmem
    rw [show runCycles s (cs :: rest) =
      ((runCycles (runCycle s cs).1 rest).1,
       (runCycle s cs).2 ++ (runCycles (runCycle s cs).1 rest).2) from rfl] at hmem
    rcases List.mem_append.mp hmem with hmem | hmem
    · rcases h1.1 with he | he <;> rw [he] at hmem <;> simp at hmem
    · exact ih (runCycle s cs).1 h1.2.1 h1.2.2 hrest hmem

/-- Witness for C5: a byte-starved cycle followed by a not-fixed sentence
cycle, from the startup state: no publish event occurs. -/
theorem C5_no_emission_before_first_fix_witness :
    Event.publish 1 2 ∉
      (runCycles ⟨false, false, 0, [], 0, 0⟩ [[], [76, 86, 13]]).2 := by
  apply C5_no_emission_before_first_fix
  · rfl
  · rfl
  · intro bs hb
    rcases List.mem_cons.mp hb with hb | hb
    · exact Or.inl hb
    · rw [List.mem_singleton] at hb
      subst hb
      exact Or.inr ⟨[86], rfl, by decide, by decide, by decide⟩

/-- C8: two complete, correctly terminated sentences delivered back-to-back
within one read burst are each individually framed and individually
resolved: the trace holds exactly one `processed` event per sentence, each
computed from that sentence's own body; the burst is not collapsed into
only the last sentence. -/
theorem C8_two_sentences_resolved (s : LoopState) (b1 b2 : List Nat)
    (h176 : 76 ∉ b1) (h113 : 13 ∉ b1) (h186 : 86 ∉ b1)
    (h276 : 76 ∉ b2) (h213 : 13 ∉ b2) (h286 : 86 ∉ b2)
    (hl1 : 27 ≤ b1.length) (hl2 : 27 ≤ b2.length) :
    (feedBytes s ((76 :: b1 ++ [13]) ++ (76 :: b2 ++ [13]))).2 =
      [Event.processed (ProcessGPSData b1).1 (ProcessGPSData b1).2,
       Event.processed (ProcessGPSData b2).1 (ProcessGPSData b2).2] := by
  rw [feedBytes_append]
  rw [feedBytes_fixedSentence s b1 h186 h176 h113]
  rw [feedBytes_fixedSentence _ b2 h286 h276 h213]
  rw [ProcessGPSData_writeSeq _ b1 hl1, ProcessGPSData_writeSeq _ b2 hl2]
  simp

/-- Witness for C8: two concrete 27-byte sentences back-to-back each yield
their own `processed` event: (0, 0) for the first and (10, 0) for the
second. -/
theorem C8_two_sentences_resolved_witness :
    (feedBytes ⟨false, false, 0, [], 0, 0⟩
        ((76 :: digitTemplate 48 ++ [13]) ++ (76 :: digitTemplate 49 ++ [13]))).2 =
      [Event.processed 0 0, Event.processed 10 0] := by
  have h := C8_two_sentences_resolved ⟨false, false, 0, [], 0, 0⟩ (digitTemplate 48)
    (digitTemplate 49) (by decide) (by decide) (by decide) (by decide) (by decide)
    (by decide) (by decide) (by decide)
  rw [h, ProcessGPSData_digitTemplate, ProcessGPSData_digitTemplate]
  norm_num

/-- C10: whenever the stored latitude and longitude are both exactly zero at
the moment the byte stream runs dry, the dry branch clears the validity
flag and publication is suppressed for that cycle — even when the zeros
came from a genuinely decoded (0, 0) fix, not only from the startup
placeholder. -/
theorem C10_zero_suppression (s : LoopState) (bs : List Nat) (la lo : ℚ)
    (hlat : (feedBytes s bs).1.latitude = 0)
    (hlon : (feedBytes s bs).1.longitude = 0) :
    Event.publish la lo ∉ (runCycle s bs).2 := by
  unfold runCycle
  have hc : ¬((dryBranch (feedBytes s bs).1).data_is_valid = true) := by
    rw [dryBranch_of_zero _ hlat hlon]
    simp
  rw [if_neg hc]
  exact publish_not_in_feedBytes bs s la lo

/-- Witness for C10: a sentence genuinely decoding to exactly (0, 0)
(all-zero digits, N/E hemispheres) is processed, yet its publication is
suppressed by the dry branch. -/
theorem C10_zero_suppression_witness :
    Event.processed 0 0 ∈
      (runCycle ⟨false, false, 0, [], 0, 0⟩ (76 :: digitTemplate 48 ++ [13])).2 ∧
    Event.publish 0 0 ∉
      (runCycle ⟨false, false, 0, [], 0, 0⟩ (76 :: digitTemplate 48 ++ [13])).2 := by
  have hfeed := feedBytes_digitTemplate 48 ⟨false, false, 0, [], 0, 0⟩ rfl
    (by decide) (by decide) (by decide)
  have hval : (((48 : Nat) : ℚ) - 48) * 10 = 0 := by norm_num
  rw [hval] at hfeed
  constructor
  · rw [runCycle_zero_end _ _ _ _ hfeed rfl rfl]
    simp
  · exact C10_zero_suppression _ _ 0 0 (by rw [hfeed]) (by rw [hfeed])

end GpsNode
